import Mathlib

/-!
Verification of the sherpa-conversations-interface preprocessing pipeline
(`preprocess.py`) and viewer startup / question rendering (`app.py`).

The Python source is embedded shallowly:
* JSON conversation records become a `Conversation` structure; fields read
  with `dict.get` (which may yield `None`) are `Option String`, fields the
  code indexes directly (`conv["assignment"]["_id"]`, `conv["_id"]` used as a
  dict key) are plain `String`.
* the process-global `random` module is modelled by an explicit integer seed
  threaded through the two `random.sample` calls; `random.sample(pool, k)` is
  modelled by `pySample`: a seed-driven selection shuffle followed by `take k`,
  which has exactly the documented guarantees of `random.sample`
  (k-element draw, without replacement).
* Python `dict` insertion (`d[k] = v`: replace in place if the key exists,
  append otherwise) is `dictInsert`.
* fallible steps (JSON parsing, the `most_common(1)[0]` index on an empty
  counter, the out-of-range label lookup in the viewer) return
  `Option` / `Except`.
-/

namespace Sherpa

open scoped List

/-- A per-question entry of `assignment["conversation_flow"]`; its `concept`
is read with `.get("concept")` so it is optional. -/
structure FlowEntry where
  concept : Option String
deriving DecidableEq, Repr

/-- The nested `assignment` object.  `_id` is indexed directly at
`preprocess.py:56`, so it is total; `title`, `assignment_type`, `subject`,
`grade`, `text` are read with `.get`, so they are optional; `concepts`
defaults to `[]` (`.get("concepts", [])`); a missing `conversation_flow` is
modelled by the empty list. -/
structure Assignment where
  id : String
  title : Option String
  assignment_type : Option String
  subject : Option String
  grade : Option String
  concepts : List String
  text : Option String
  conversation_flow : List FlowEntry
deriving DecidableEq, Repr

/-- A `student` or `teacher` sub-object (`_id` and `name` read with `.get`). -/
structure Person where
  id : Option String
  name : Option String
deriving DecidableEq, Repr

/-- One entry of a conversation's `questions` array. -/
structure Question where
  question : String
  response : String
  improved_response : Option String
deriving DecidableEq, Repr

/-- A raw conversation record.  `_id` is used as a dict key, so it is total. -/
structure Conversation where
  id : String
  assignment : Assignment
  student : Person
  teacher : Person
  student_work : Option String
  questions : List Question
deriving DecidableEq, Repr

/-- Source `has_valid_concepts` (preprocess.py:8-11): `bool(concepts) and
all(concepts)` — the list is non-empty and every string in it is truthy
(non-empty). -/
def has_valid_concepts (conv : Conversation) : Bool :=
  let concepts := conv.assignment.concepts
  !concepts.isEmpty && concepts.all (fun c => !c.isEmpty)

/-- Source `get_student_reading` (preprocess.py:14-23): `assignment["text"]` for
"Reading Responses" assignments, `student_work` otherwise. -/
def get_student_reading (conv : Conversation) : Option String :=
  if conv.assignment.assignment_type = some "Reading Responses" then
    conv.assignment.text
  else
    conv.student_work

/-- A linear congruential step: the deterministic pseudo-random stream that
models the module-global `random` generator once it has been seeded. -/
def lcg (s : Nat) : Nat := (s * 1103515245 + 12345) % 2147483648

/-- Seed-driven selection shuffle, structurally recursive on a fuel bound:
repeatedly pick a pseudo-random position and remove it. -/
def shuffleFuel : Nat → Nat → List α → List α
  | 0, _, _ => []
  | _ + 1, _, [] => []
  | fuel + 1, s, x :: xs =>
    (x :: xs).get ⟨s % (x :: xs).length, Nat.mod_lt _ (Nat.succ_pos xs.length)⟩ ::
      shuffleFuel fuel (lcg s) ((x :: xs).eraseIdx (s % (x :: xs).length))

/-- Here `shuffle s l` is the seed-`s` permutation of `l`; it models the order in
which a seeded `random` generator visits the pool. -/
def shuffle (s : Nat) (l : List α) : List α :=
  shuffleFuel l.length s l

/-- Model of `random.sample(l, k)` under a seeded generator: the first `k`
elements of the seed-determined shuffle of `l`. -/
def pySample (s : Nat) (l : List α) (k : Nat) : List α :=
  (shuffle s l).take k

/-- Removing the element at position `i` and re-consing it in front is a
permutation of the original list. -/
theorem perm_get_cons_eraseIdx :
    ∀ (l : List α) (i : Nat) (h : i < l.length),
      l ~ l.get ⟨i, h⟩ :: l.eraseIdx i
  | x :: xs, 0, _ => by simp
  | x :: xs, i + 1, h => by
    have ih := perm_get_cons_eraseIdx xs i (by simpa using h)
    have step : x :: xs ~ x :: (xs.get ⟨i, by simpa using h⟩ :: xs.eraseIdx i) :=
      ih.cons x
    simpa [List.eraseIdx] using step.trans (List.Perm.swap _ _ _)

/-- With enough fuel, the selection shuffle permutes its input. -/
theorem shuffleFuel_perm :
    ∀ (fuel s : Nat) (l : List α), l.length ≤ fuel →
      shuffleFuel fuel s l ~ l
  | fuel, _, [], _ => by cases fuel <;> simp [shuffleFuel]
  | 0, _, _ :: _, h => by simp at h
  | fuel + 1, s, x :: xs, h => by
    have hi : s % (x :: xs).length < (x :: xs).length :=
      Nat.mod_lt _ (Nat.succ_pos _)
    have hlen : ((x :: xs).eraseIdx (s % (x :: xs).length)).length ≤ fuel := by
      have hlen' := List.length_eraseIdx_add_one hi
      simp only [List.length_cons] at h hlen' ⊢
      omega
    have ih := shuffleFuel_perm fuel (lcg s) _ hlen
    exact (ih.cons _).trans (perm_get_cons_eraseIdx _ _ hi).symm

/-- A seeded shuffle is a permutation of its input. -/
theorem shuffle_perm (s : Nat) (l : List α) : shuffle s l ~ l :=
  shuffleFuel_perm _ _ _ (Nat.le_refl _)

/-- Model of `random.sample`: the draw has exactly `min k |pool|` elements. -/
theorem pySample_length (s : Nat) (l : List α) (k : Nat) :
    (pySample s l k).length = min k l.length := by
  simp [pySample, (shuffle_perm s l).length_eq]

/-- Model of `random.sample`: the draw is a contiguous prefix of some
permutation of the pool — the "without replacement" guarantee, valid even
when the pool holds duplicate records. -/
theorem pySample_sublist_perm (s : Nat) (l : List α) (k : Nat) :
    ∃ p : List α, p ~ l ∧ pySample s l k <+ p :=
  ⟨shuffle s l, shuffle_perm s l, List.take_sublist _ _⟩

/-- Model of `random.sample`: every drawn element comes from the pool. -/
theorem pySample_subset (s : Nat) (l : List α) (k : Nat) :
    pySample s l k ⊆ l :=
  fun _ ha => (shuffle_perm s l).subset ((List.take_sublist _ _).subset ha)

/-- Model of `random.sample`: a draw from a duplicate-free pool is
duplicate-free. -/
theorem pySample_nodup (s : Nat) (l : List α) (k : Nat) (h : l.Nodup) :
    (pySample s l k).Nodup :=
  ((shuffle_perm s l).symm.nodup h).sublist (List.take_sublist _ _)

/-- Model of `random.sample`: when the pool is at most the requested size, the
whole pool is drawn (as a permutation of it). -/
theorem pySample_perm_of_le (s : Nat) (l : List α) (k : Nat)
    (h : l.length ≤ k) : pySample s l k ~ l := by
  have hlen : (shuffle s l).length ≤ k := by
    rw [(shuffle_perm s l).length_eq]; exact h
  rw [pySample, List.take_of_length_le hlen]
  exact shuffle_perm s l

/-- One flattened row of the summary table (preprocess.py:116-132). -/
structure SummaryRecord where
  conversation_id : String
  assignment_id : String
  assignment_name : Option String
  assignment_type : Option String
  assignment_subject : Option String
  assignment_grade : Option String
  has_concepts : Bool
  concepts : List String
  student_id : Option String
  student_name : Option String
  teacher_id : Option String
  teacher_name : Option String
  student_reading : Option String
  is_popular_assignment : Bool
deriving DecidableEq, Repr

/-- Building one summary record from a raw conversation
(the loop body, preprocess.py:107-133). -/
def makeRecord (popId : String) (conv : Conversation) : SummaryRecord :=
  { conversation_id := conv.id
    assignment_id := conv.assignment.id
    assignment_name := conv.assignment.title
    assignment_type := conv.assignment.assignment_type
    assignment_subject := conv.assignment.subject
    assignment_grade := conv.assignment.grade
    has_concepts := has_valid_concepts conv
    concepts := conv.assignment.concepts
    student_id := conv.student.id
    student_name := conv.student.name
    teacher_id := conv.teacher.id
    teacher_name := conv.teacher.name
    student_reading := get_student_reading conv
    is_popular_assignment := conv.assignment.id = popId }

/-- Number of conversations carrying a given assignment id
(one bucket of `Counter(conv["assignment"]["_id"] for conv in data)`). -/
def countId (data : List Conversation) (aid : String) : Nat :=
  (data.filter (fun c => c.assignment.id = aid)).length

/-- The first-listed id attaining the maximal count.  A later id replaces the
current best only when its count is strictly greater, so ties keep the
earlier id — exactly `Counter.most_common(1)`, which sorts stably by
descending count over the counter's insertion (first-encounter) order. -/
def mostCommonAux (cnt : String → Nat) : List String → Option String
  | [] => none
  | a :: rest =>
    match mostCommonAux cnt rest with
    | none => some a
    | some b => if cnt b > cnt a then some b else some a

/-- Source `assignment_counts.most_common(1)[0][0]` (preprocess.py:56-57): the
most-frequent assignment id, `none` when the collection is empty (where the
Python `[0]` index raises `IndexError`). -/
def mostPopularAssignment (data : List Conversation) : Option String :=
  mostCommonAux (countId data) (data.map (fun c => c.assignment.id))

/-- Source `popular_assignment_conversations` (preprocess.py:60-62). -/
def popularPartition (data : List Conversation) (popId : String) :
    List Conversation :=
  data.filter (fun c => c.assignment.id = popId)

/-- Source `remaining_conversations` (preprocess.py:65-67). -/
def remainingConversations (data : List Conversation) (popId : String) :
    List Conversation :=
  data.filter (fun c => ¬c.assignment.id = popId)

/-- Source `with_concepts` before sampling (preprocess.py:70-72). -/
def withConceptsPool (data : List Conversation) (popId : String) :
    List Conversation :=
  (remainingConversations data popId).filter (fun c => has_valid_concepts c)

/-- Source `without_concepts` before sampling (preprocess.py:73-75). -/
def withoutConceptsPool (data : List Conversation) (popId : String) :
    List Conversation :=
  (remainingConversations data popId).filter (fun c => !has_valid_concepts c)

/-- Source `random.sample(with_concepts, min(half, len(with_concepts)))`
(preprocess.py:85-86) with `half = base_conversations // 2`. -/
def sampledWithConcepts (seed base : Nat) (data : List Conversation)
    (popId : String) : List Conversation :=
  let pool := withConceptsPool data popId
  pySample seed pool (min (base / 2) pool.length)

/-- Source `random.sample(without_concepts, min(half, len(without_concepts)))`
(preprocess.py:87); the global generator has advanced past the first call,
modelled by stepping the seed with `lcg`. -/
def sampledWithoutConcepts (seed base : Nat) (data : List Conversation)
    (popId : String) : List Conversation :=
  let pool := withoutConceptsPool data popId
  pySample (lcg seed) pool (min (base / 2) pool.length)

/-- Source `sampled_conversations` (preprocess.py:90-92). -/
def selectedConversations (seed base : Nat) (data : List Conversation)
    (popId : String) : List Conversation :=
  sampledWithConcepts seed base data popId ++
    sampledWithoutConcepts seed base data popId ++
    popularPartition data popId

/-- Python dict assignment `d[k] = v`: replace the value in place when the
key is present, append the pair otherwise. -/
def dictInsert (d : List (String × Conversation)) (k : String)
    (v : Conversation) : List (String × Conversation) :=
  if d.any (fun p => p.1 = k) then
    d.map (fun p => if p.1 = k then (k, v) else p)
  else
    d ++ [(k, v)]

/-- Source `raw_conversations` after the loop (preprocess.py:104,134): each selected
conversation is stored under its `_id`. -/
def rawLookupOf (selected : List Conversation) : List (String × Conversation) :=
  selected.foldl (fun d c => dictInsert d c.id c) []

/-- Source `popular_assignment_data` after the loop (preprocess.py:105,137-138):
only selected conversations from the popular assignment are stored. -/
def popularDataOf (selected : List Conversation) (popId : String) :
    List (String × Conversation) :=
  (selected.filter (fun c => c.assignment.id = popId)).foldl
    (fun d c => dictInsert d c.id c) []

/-- The `popular_assignment.json` payload (preprocess.py:149-159).  The
Python code indexes `popular_assignment_conversations[0]` for the title;
that partition is provably non-empty whenever this artifact is built, and the
index is modelled by `head?`. -/
structure PopularExtract where
  assignment_id : String
  assignment_name : Option String
  conversations : List (String × Conversation)
deriving DecidableEq, Repr

/-- The three artifacts written by one successful preprocessing run. -/
structure PreprocessOutput where
  summary : List SummaryRecord
  rawLookup : List (String × Conversation)
  popularExtract : PopularExtract
deriving DecidableEq, Repr

/-- The whole post-parse pipeline for a given popular assignment id
(preprocess.py:60-159). -/
def buildOutput (seed base : Nat) (data : List Conversation)
    (popId : String) : PreprocessOutput :=
  let selected := selectedConversations seed base data popId
  { summary := selected.map (makeRecord popId)
    rawLookup := rawLookupOf selected
    popularExtract :=
      { assignment_id := popId
        assignment_name :=
          (popularPartition data popId).head?.bind (fun c => c.assignment.title)
        conversations := popularDataOf selected popId } }

/-- The preprocessing failure modelled in this development:
`most_common(1)[0]` raising `IndexError` on an empty collection. -/
inductive PreprocessError where
  | indexError
deriving DecidableEq, Repr

/-- Source `preprocess_data` after a successful parse (preprocess.py:55-159). -/
def preprocessCore (seed base : Nat) (data : List Conversation) :
    Except PreprocessError PreprocessOutput :=
  match mostPopularAssignment data with
  | none => .error .indexError
  | some popId => .ok (buildOutput seed base data popId)

/-- One pass of Python `str.replace(String.mk [',', close], String.mk [close])`:
scan left to right, replacing each non-overlapping occurrence of a comma
directly followed by `close`, never rescanning produced text. -/
def stripCommaBefore (close : Char) : List Char → List Char
  | [] => []
  | [c] => [c]
  | a :: b :: rest =>
    if a = ',' ∧ b = close then close :: stripCommaBefore close rest
    else a :: stripCommaBefore close (b :: rest)

/-- The repair pass (preprocess.py:47):
`content.replace(",]", "]").replace(",}", "}")`. -/
def fixJson (s : String) : String :=
  String.mk (stripCommaBefore '}' (stripCommaBefore ']' s.data))

/-- Observable outcome of one `preprocess_data` run. -/
inductive RunResult where
  /-- All three artifacts were written. -/
  | wrote (out : PreprocessOutput)
  /-- Both parse attempts failed; the run returned before any write
  (preprocess.py:52-53). -/
  | parseAbort
  /-- The run died with `IndexError` on an empty collection
  (preprocess.py:57), again before any write. -/
  | indexCrash
deriving DecidableEq, Repr

/-- Finishing the run once `data` is parsed. -/
def runParsed (seed base : Nat) (data : List Conversation) : RunResult :=
  match preprocessCore seed base data with
  | .ok out => .wrote out
  | .error _ => .indexCrash

/-- Source `preprocess_data` (preprocess.py:26-159) over file `content`, with JSON
decoding abstracted as `parse` (the `json` module is external to this
repository): try the raw content, on failure repair once with `fixJson` and
retry once, on a second failure return without writing. -/
def preprocess_data (parse : String → Option (List Conversation))
    (content : String) (seed base : Nat) : RunResult :=
  match parse content with
  | some data => runParsed seed base data
  | none =>
    match parse (fixJson content) with
    | some data => runParsed seed base data
    | none => .parseAbort

/-- The artifacts a run leaves on disk: the writes
(preprocess.py:142,145-146,149-159) run consecutively at the end of a
successful run, and every failure path returns before the first of them. -/
def writtenArtifacts : RunResult → List String
  | .wrote _ =>
    ["processed_data/conversations.parquet",
     "processed_data/raw_conversations.json",
     "processed_data/popular_assignment.json"]
  | .parseAbort => []
  | .indexCrash => []

/-- What the Viewer does at startup. -/
inductive ViewerStart where
  /-- `st.error(msg)` followed by `st.stop()` — nothing else runs. -/
  | stopMessage (msg : String)
  /-- Both artifacts loaded; the page renders. -/
  | loaded
  /-- An exception escaped (opening a missing file in `load_data`). -/
  | uncaughtException
deriving DecidableEq, Repr

/-- Viewer startup (app.py:23-29): only the parquet file's existence is
checked before `load_data` opens both artifacts. -/
def viewerStart (parquetExists rawExists : Bool) : ViewerStart :=
  if !parquetExists then
    .stopMessage "Preprocessed data not found. Please run preprocess.py first."
  else if rawExists then .loaded
  else .uncaughtException

/-- The fixed label taxonomy (app.py:99-106). -/
def question_labels : List String :=
  ["I1: Hook Question",
   "BQ1: Recall Question",
   "P1: Probing Question (Follow-up to BQ1)",
   "BQ2: Analytical Question",
   "P2: Probing Question (Follow-up to BQ2)",
   "BQ3: Open-ended Question"]

/-- The fixed description taxonomy (app.py:107-114). -/
def question_descriptions : List String :=
  ["Intrigues the student about the reading",
   "Simple retrieve and recall question with a discrete answer",
   "Follow-up probing question for Question 2",
   "More challenging analytical question requiring synthesis",
   "Probing question based on the student's response to Question 4",
   "Abstract, open-ended question to stimulate creativity"]

/-- One question as rendered in the Questions tab. -/
structure RenderedQuestion where
  label : String
  description : String
  teacherConcept : Option String
  q : Question
deriving DecidableEq, Repr

/-- The Questions-tab loop body for 0-based index `i` (1-based `i+1` in the
Python `enumerate(..., 1)`): `question_labels[i-1]` and
`question_descriptions[i-1]` are unguarded list indexes — `none` here models
`IndexError` — while the `conversation_flow` lookup is length-guarded and the
concept shown only when truthy (app.py:119-134). -/
def renderQuestionsAux (flow : List FlowEntry) :
    Nat → List Question → Except Unit (List RenderedQuestion)
  | _, [] => .ok []
  | i, q :: rest =>
    match question_labels[i]?, question_descriptions[i]? with
    | some lab, some desc =>
      let tc := (flow[i]?.bind (fun e => e.concept)).filter (fun c => !c.isEmpty)
      match renderQuestionsAux flow (i + 1) rest with
      | .ok out => .ok ({ label := lab, description := desc,
                          teacherConcept := tc, q := q } :: out)
      | .error e => .error e
    | _, _ => .error ()

/-- Rendering the Questions tab of one conversation (app.py:119-141). -/
def renderQuestions (conv : Conversation) :
    Except Unit (List RenderedQuestion) :=
  renderQuestionsAux conv.assignment.conversation_flow 0 conv.questions

/-! Concrete records used to instantiate the theorems below. -/

/-- A "Reading Responses" assignment with one valid concept. -/
def assignA : Assignment :=
  { id := "A", title := some "Gravity Reading", assignment_type := some "Reading Responses",
    subject := some "Science", grade := some "8", concepts := ["gravity"],
    text := some "Reading passage", conversation_flow := [⟨some "gravity"⟩] }

/-- A non-reading assignment without concepts. -/
def assignB : Assignment :=
  { id := "B", title := some "Free Writing", assignment_type := some "Creative Writing",
    subject := none, grade := none, concepts := [], text := none,
    conversation_flow := [] }

/-- An assignment whose concepts list contains an empty string. -/
def assignC : Assignment :=
  { id := "C", title := none, assignment_type := none,
    subject := none, grade := none, concepts := ["", "photosynthesis"],
    text := none, conversation_flow := [] }

/-- A question fixture. -/
def q0 : Question :=
  { question := "Why?", response := "Because.", improved_response := none }

/-- A conversation on the reading assignment. -/
def convReading : Conversation :=
  { id := "c1", assignment := assignA, student := ⟨some "s1", some "Stu"⟩,
    teacher := ⟨some "t1", some "Tea"⟩, student_work := some "essay text",
    questions := [q0, q0, q0] }

/-- A conversation on the non-reading assignment. -/
def convOther : Conversation :=
  { id := "c2", assignment := assignB, student := ⟨some "s2", some "Stu2"⟩,
    teacher := ⟨some "t1", some "Tea"⟩, student_work := some "a short story",
    questions := [q0] }

/-- A conversation whose concepts list holds an empty string. -/
def convEmptyConcept : Conversation :=
  { id := "c3", assignment := assignC, student := ⟨none, none⟩,
    teacher := ⟨none, none⟩, student_work := none, questions := [] }

/-- A second conversation on assignment "A", making "A" the popular one. -/
def convReading2 : Conversation :=
  { id := "c4", assignment := assignA, student := ⟨some "s3", some "Stu3"⟩,
    teacher := ⟨some "t1", some "Tea"⟩, student_work := none,
    questions := [q0] }

/-- A conversation with seven questions — one more than the taxonomy. -/
def convSeven : Conversation :=
  { id := "c7", assignment := assignB, student := ⟨none, none⟩,
    teacher := ⟨none, none⟩, student_work := none,
    questions := [q0, q0, q0, q0, q0, q0, q0] }

/-- A quiz assignment with two valid concepts. -/
def assignD : Assignment :=
  { id := "D", title := some "Cells", assignment_type := some "Quiz",
    subject := some "Bio", grade := some "7", concepts := ["mitosis", "meiosis"],
    text := none, conversation_flow := [] }

/-- A conversation carrying valid concepts on a non-popular assignment. -/
def convConcepts : Conversation :=
  { id := "c5", assignment := assignD, student := ⟨some "s4", some "Stu4"⟩,
    teacher := ⟨some "t2", some "Tea2"⟩, student_work := some "notes",
    questions := [q0, q0] }

/-- A small input collection: assignment "A" is most popular (2 records),
"B", "C" and "D" have one each; ids are unique. -/
def dataW : List Conversation :=
  [convReading, convOther, convEmptyConcept, convReading2, convConcepts]

/-! Claim theorems. -/

/-- C5: the derived `has_concepts` flag is true iff the assignment's
`concepts` list is non-empty and free of empty strings; in particular a
record with `concepts = ["", "photosynthesis"]` has `has_concepts = false`. -/
theorem c5_has_concepts_iff (popId : String) (conv : Conversation) :
    ((makeRecord popId conv).has_concepts = true ↔
      conv.assignment.concepts ≠ [] ∧
        ∀ c ∈ conv.assignment.concepts, c ≠ "") ∧
    (conv.assignment.concepts = ["", "photosynthesis"] →
      (makeRecord popId conv).has_concepts = false) := by
  have hstr : ∀ s : String, s.isEmpty = false ↔ ¬s = "" := by
    intro s
    rw [← String.isEmpty_iff]
    exact Bool.eq_false_iff.trans (by simp)
  constructor
  · show has_valid_concepts conv = true ↔ _
    simp [has_valid_concepts, List.isEmpty_iff, hstr]
  · intro h
    show has_valid_concepts conv = false
    simp [has_valid_concepts, h]
    decide

/-- C5 witness: evaluated on the fixture whose concepts are
`["", "photosynthesis"]`, the flag is false. -/
theorem c5_witness : (makeRecord "A" convEmptyConcept).has_concepts = false :=
  (c5_has_concepts_iff "A" convEmptyConcept).2 rfl

/-- C6: the summary's `student_reading` is `assignment.text` exactly for
"Reading Responses" assignments and `student_work` for every other
assignment type. -/
theorem c6_student_reading (popId : String) (conv : Conversation) :
    (conv.assignment.assignment_type = some "Reading Responses" →
      (makeRecord popId conv).student_reading = conv.assignment.text) ∧
    (conv.assignment.assignment_type ≠ some "Reading Responses" →
      (makeRecord popId conv).student_reading = conv.student_work) := by
  constructor <;> intro h <;>
    · show get_student_reading conv = _
      simp [get_student_reading, h]

/-- C6 witness: the reading-responses fixture resolves to `assignment.text`,
the creative-writing fixture to `student_work`. -/
theorem c6_witness :
    (makeRecord "A" convReading).student_reading = convReading.assignment.text ∧
    (makeRecord "A" convOther).student_reading = convOther.student_work :=
  ⟨(c6_student_reading "A" convReading).1 rfl,
   (c6_student_reading "A" convOther).2 (by decide)⟩

/-- C4: with the process RNG modelled as an explicit seed, the preprocessing
output is a deterministic function of the input collection, the base count
and the seed: equal inputs give equal summary tables, raw lookups and
popular extracts. -/
theorem c4_deterministic (d₁ d₂ : List Conversation) (b₁ b₂ s₁ s₂ : Nat)
    (hd : d₁ = d₂) (hb : b₁ = b₂) (hs : s₁ = s₂) :
    preprocessCore s₁ b₁ d₁ = preprocessCore s₂ b₂ d₂ := by
  rw [hd, hb, hs]

/-- C4 witness: two runs on the fixture collection with seed 7 and base 4
coincide. -/
theorem c4_witness : preprocessCore 7 4 dataW = preprocessCore 7 4 dataW :=
  c4_deterministic dataW dataW 4 4 7 7 rfl rfl rfl

/-- C8 counterexample: with the summary table present but the raw lookup
absent, startup reaches `load_data` (only the parquet file's existence is
checked) and dies with an uncaught exception instead of the
"run preprocessing first" stop. -/
theorem c8_counterexample :
    viewerStart true false = ViewerStart.uncaughtException := rfl

/-- C8 amended: the Viewer fails fast with the "run preprocessing first"
message only when the summary table (parquet) is absent; when it is present
but the raw lookup is absent, startup raises an uncaught exception; with
both present it loads. -/
theorem c8_amended (rawExists : Bool) :
    viewerStart false rawExists =
      ViewerStart.stopMessage
        "Preprocessed data not found. Please run preprocess.py first." ∧
    viewerStart true false = ViewerStart.uncaughtException ∧
    viewerStart true true = ViewerStart.loaded := by
  refine ⟨?_, rfl, rfl⟩
  cases rawExists <;> rfl

/-- On a non-empty id list, `most_common(1)` always yields an id. -/
theorem mostCommonAux_cons (cnt : String → Nat) (a : String)
    (rest : List String) : ∃ b, mostCommonAux cnt (a :: rest) = some b := by
  rcases h : mostCommonAux cnt rest with _ | b
  · exact ⟨a, by simp [mostCommonAux, h]⟩
  · by_cases hgt : cnt b > cnt a
    · exact ⟨b, by simp [mostCommonAux, h, hgt]⟩
    · exact ⟨a, by simp [mostCommonAux, h, hgt]⟩

/-- A non-empty collection always has a most popular assignment id. -/
theorem mostPopularAssignment_isSome (data : List Conversation)
    (h : data ≠ []) : ∃ popId, mostPopularAssignment data = some popId := by
  match data with
  | [] => exact absurd rfl h
  | c :: rest =>
    simpa [mostPopularAssignment] using
      mostCommonAux_cons (countId (c :: rest)) c.assignment.id
        (rest.map (fun c => c.assignment.id))

/-- C9: on the empty collection the popular-assignment selection
(`most_common(1)[0]`) is undefined and the run dies with the modelled
`IndexError` with none of the three artifacts written (not the parse-abort
path, not three empty artifacts); on any non-empty collection the pipeline
completes and produces its output — non-emptiness is exactly the
precondition for `preprocess_data` to complete. -/
theorem c9_empty_input :
    (∀ seed base, preprocessCore seed base [] =
      .error PreprocessError.indexError) ∧
    (∀ seed base, runParsed seed base [] = RunResult.indexCrash ∧
      writtenArtifacts (runParsed seed base []) = []) ∧
    (∀ seed base (data : List Conversation), data ≠ [] →
      ∃ out, preprocessCore seed base data = .ok out) := by
  refine ⟨fun _ _ => rfl, fun _ _ => ⟨rfl, rfl⟩, ?_⟩
  intro seed base data hne
  obtain ⟨popId, hpop⟩ := mostPopularAssignment_isSome data hne
  exact ⟨buildOutput seed base data popId, by simp [preprocessCore, hpop]⟩

/-- C9 witness: the empty run errors; the fixture run completes. -/
theorem c9_witness :
    preprocessCore 7 4 [] = .error PreprocessError.indexError ∧
    ∃ out, preprocessCore 7 4 dataW = .ok out :=
  ⟨c9_empty_input.1 7 4, c9_empty_input.2.2 7 4 dataW (by simp [dataW])⟩

/-- C7: when the source fails to parse, exactly one repair
(`fixJson`, stripping `",]"` to `"]"` then `",}"` to `"}"`) is attempted and
parsing retried once — if the repaired content parses the run proceeds with
it, and if it still fails the run aborts with none of the three artifacts
written. -/
theorem c7_parse_abort (parse : String → Option (List Conversation))
    (content : String) (seed base : Nat) (h1 : parse content = none) :
    (∀ d, parse (fixJson content) = some d →
      preprocess_data parse content seed base = runParsed seed base d) ∧
    (parse (fixJson content) = none →
      preprocess_data parse content seed base = RunResult.parseAbort ∧
      writtenArtifacts (preprocess_data parse content seed base) = []) := by
  constructor
  · intro d h2
    simp [preprocess_data, h1, h2]
  · intro h2
    refine ⟨?_, ?_⟩ <;> simp [preprocess_data, h1, h2, writtenArtifacts]

/-- C7 witness: a parser that rejects both the raw and the repaired content
makes the run abort without writing. -/
theorem c7_witness :
    preprocess_data (fun _ => none) "[,]" 0 0 = RunResult.parseAbort ∧
    writtenArtifacts (preprocess_data (fun _ => none) "[,]" 0 0) = [] :=
  (c7_parse_abort (fun _ => none) "[,]" 0 0 rfl).2 rfl

/-- C1: each stratified draw has exactly `min (base/2) |pool|` elements, is
taken from its own pool without replacement (a prefix of a permutation of
the pool; a subset with no duplicates when the pool has none), and an
undersized pool is taken whole with no error. -/
theorem c1_stratified_sampling (seed base : Nat) (data : List Conversation)
    (popId : String) :
    (sampledWithConcepts seed base data popId).length =
      min (base / 2) (withConceptsPool data popId).length ∧
    (sampledWithoutConcepts seed base data popId).length =
      min (base / 2) (withoutConceptsPool data popId).length ∧
    sampledWithConcepts seed base data popId ⊆ withConceptsPool data popId ∧
    sampledWithoutConcepts seed base data popId ⊆
      withoutConceptsPool data popId ∧
    (∃ p, p ~ withConceptsPool data popId ∧
      sampledWithConcepts seed base data popId <+ p) ∧
    (∃ p, p ~ withoutConceptsPool data popId ∧
      sampledWithoutConcepts seed base data popId <+ p) ∧
    ((withConceptsPool data popId).Nodup →
      (sampledWithConcepts seed base data popId).Nodup) ∧
    ((withoutConceptsPool data popId).Nodup →
      (sampledWithoutConcepts seed base data popId).Nodup) ∧
    ((withConceptsPool data popId).length ≤ base / 2 →
      sampledWithConcepts seed base data popId ~
        withConceptsPool data popId) ∧
    ((withoutConceptsPool data popId).length ≤ base / 2 →
      sampledWithoutConcepts seed base data popId ~
        withoutConceptsPool data popId) := by
  refine ⟨?_, ?_, pySample_subset _ _ _, pySample_subset _ _ _,
    pySample_sublist_perm _ _ _, pySample_sublist_perm _ _ _,
    fun h => pySample_nodup _ _ _ h, fun h => pySample_nodup _ _ _ h,
    fun h => ?_, fun h => ?_⟩
  · rw [sampledWithConcepts, pySample_length]
    omega
  · rw [sampledWithoutConcepts, pySample_length]
    omega
  · exact pySample_perm_of_le _ _ _ (by omega)
  · exact pySample_perm_of_le _ _ _ (by omega)

/-- C1 witness: on the fixture collection with base count 4 and popular id
"A", the with-concepts draw from a duplicate-free pool is duplicate-free,
and the undersized without-concepts pool (2 ≤ 2) is drawn whole. -/
theorem c1_witness :
    (withConceptsPool dataW "A").Nodup ∧
    (sampledWithConcepts 7 4 dataW "A").Nodup ∧
    (withoutConceptsPool dataW "A").length ≤ 4 / 2 ∧
    sampledWithoutConcepts 7 4 dataW "A" ~ withoutConceptsPool dataW "A" := by
  refine ⟨by decide, ?_, by decide, ?_⟩
  · exact (c1_stratified_sampling 7 4 dataW "A").2.2.2.2.2.2.1 (by decide)
  · exact (c1_stratified_sampling 7 4 dataW "A").2.2.2.2.2.2.2.2.2 (by decide)

/-- Loop invariant of the Questions-tab rendering: starting at 0-based index
`i`, the loop succeeds exactly when it never reaches index 6, pairing the
questions in order with the taxonomy entries from position `i` on; as soon
as the questions run past the 6-entry tables it errors. -/
theorem renderQuestionsAux_spec (flow : List FlowEntry) (qs : List Question) :
    ∀ i : Nat,
      (i + qs.length ≤ 6 →
        ∃ out, renderQuestionsAux flow i qs = .ok out ∧
          out.map (fun r => r.label) =
            (question_labels.drop i).take qs.length ∧
          out.map (fun r => r.q) = qs) ∧
      (qs ≠ [] → 6 < i + qs.length →
        renderQuestionsAux flow i qs = .error ()) := by
  induction qs with
  | nil =>
    intro i
    exact ⟨fun _ => ⟨[], rfl, by simp, rfl⟩, fun h _ => absurd rfl h⟩
  | cons q rest ih =>
    intro i
    constructor
    · intro h
      have hi : i < 6 := by
        simp only [List.length_cons] at h
        omega
      have hi' : i < question_labels.length := hi
      have hi'' : i < question_descriptions.length := hi
      obtain ⟨out', hout', hlab', hq'⟩ := (ih (i + 1)).1 (by
        simp only [List.length_cons] at h
        omega)
      refine ⟨⟨question_labels.get ⟨i, hi'⟩, question_descriptions.get ⟨i, hi''⟩,
        (flow[i]?.bind (fun e => e.concept)).filter (fun c => !c.isEmpty),
        q⟩ :: out', ?_, ?_, ?_⟩
      · simp [renderQuestionsAux, List.getElem?_eq_getElem hi',
          List.getElem?_eq_getElem hi'', hout']
      · rw [List.map_cons, hlab', List.length_cons,
          ← List.getElem_cons_drop question_labels i hi', List.take_succ_cons]
        rfl
      · simp [hq']
    · intro _ h
      by_cases hi : i < 6
      · have hi' : i < question_labels.length := hi
        have hi'' : i < question_descriptions.length := hi
        have hrest : rest ≠ [] := by
          have : 0 < rest.length := by
            simp only [List.length_cons] at h
            omega
          exact List.ne_nil_of_length_pos this
        have herr := (ih (i + 1)).2 hrest (by
          simp only [List.length_cons] at h
          omega)
        simp [renderQuestionsAux, List.getElem?_eq_getElem hi',
          List.getElem?_eq_getElem hi'', herr]
      · have hnone : question_labels[i]? = none :=
          List.getElem?_eq_none (by simpa using Nat.le_of_not_lt hi)
        simp [renderQuestionsAux, hnone]

/-- C10: a conversation with at most 6 questions renders with each 1-indexed
question `i` paired in bounds with the taxonomy label at position `i-1`
(the rendered labels are the corresponding prefix of `question_labels`);
with more than 6 questions the label lookup goes out of range and the
rendering errors. -/
theorem c10_question_taxonomy (conv : Conversation) :
    (conv.questions.length ≤ 6 →
      ∃ out, renderQuestions conv = .ok out ∧
        out.map (fun r => r.label) =
          question_labels.take conv.questions.length ∧
        out.map (fun r => r.q) = conv.questions) ∧
    (6 < conv.questions.length → renderQuestions conv = .error ()) := by
  have hspec := renderQuestionsAux_spec conv.assignment.conversation_flow
    conv.questions 0
  constructor
  · intro h
    obtain ⟨out, hout, hlab, hq⟩ := hspec.1 (by omega)
    exact ⟨out, hout, by simpa using hlab, hq⟩
  · intro h
    exact hspec.2 (List.ne_nil_of_length_pos (by omega)) (by omega)

/-- C10 witness: the three-question fixture renders with the first three
labels, and the seven-question fixture hits the out-of-range lookup. -/
theorem c10_witness :
    (∃ out, renderQuestions convReading = .ok out ∧
      out.map (fun r => r.label) =
        question_labels.take convReading.questions.length ∧
      out.map (fun r => r.q) = convReading.questions) ∧
    renderQuestions convSeven = .error () :=
  ⟨(c10_question_taxonomy convReading).1 (by decide),
   (c10_question_taxonomy convSeven).2 (by decide)⟩

/-- Membership in the with-concepts pool. -/
theorem mem_withConceptsPool {data : List Conversation} {popId : String}
    {c : Conversation} :
    c ∈ withConceptsPool data popId ↔
      c ∈ data ∧ ¬c.assignment.id = popId ∧ has_valid_concepts c = true := by
  simp [withConceptsPool, remainingConversations, List.mem_filter, and_assoc]
  exact fun _ => and_comm

/-- Membership in the without-concepts pool. -/
theorem mem_withoutConceptsPool {data : List Conversation} {popId : String}
    {c : Conversation} :
    c ∈ withoutConceptsPool data popId ↔
      c ∈ data ∧ ¬c.assignment.id = popId ∧ has_valid_concepts c = false := by
  simp [withoutConceptsPool, remainingConversations, List.mem_filter, and_assoc]
  exact fun _ => and_comm

/-- Membership in the popular partition. -/
theorem mem_popularPartition {data : List Conversation} {popId : String}
    {c : Conversation} :
    c ∈ popularPartition data popId ↔
      c ∈ data ∧ c.assignment.id = popId := by
  simp [popularPartition, List.mem_filter]

/-- Folding Python-dict insertion over records with pairwise-distinct ids
that are all fresh for the accumulator just appends the key/value pairs. -/
theorem foldl_dictInsert_eq (l : List Conversation) :
    ∀ d : List (String × Conversation),
      (∀ c ∈ l, ∀ p ∈ d, p.1 ≠ c.id) →
      (l.map (fun c => c.id)).Nodup →
      l.foldl (fun d c => dictInsert d c.id c) d =
        d ++ l.map (fun c => (c.id, c)) := by
  induction l with
  | nil => intro d _ _; simp
  | cons c rest ih =>
    intro d hd hnd
    have hnd' := List.nodup_cons.1 (hnd : (c.id :: rest.map (fun c => c.id)).Nodup)
    have hany : d.any (fun p => p.1 = c.id) = false := by
      rw [List.any_eq_false]
      intro p hp
      simpa using hd c (by simp) p hp
    have hins : dictInsert d c.id c = d ++ [(c.id, c)] := by
      rw [dictInsert, hany]
      simp
    rw [List.foldl_cons, hins,
      ih (d ++ [(c.id, c)]) ?_ hnd'.2]
    · simp
    · intro c' hc' p hp
      rcases List.mem_append.1 hp with hdp | hsp
      · exact hd c' (List.mem_cons_of_mem _ hc') p hdp
      · have hpe : p = (c.id, c) := by simpa using hsp
        subst hpe
        intro heq
        refine hnd'.1 ?_
        show c.id ∈ List.map (fun c => c.id) rest
        rw [show c.id = c'.id from heq]
        exact List.mem_map_of_mem _ hc'

/-- With pairwise-distinct conversation ids, the raw-lookup dict is the
selected list's key/value pairs in order. -/
theorem rawLookupOf_eq (selected : List Conversation)
    (h : (selected.map (fun c => c.id)).Nodup) :
    rawLookupOf selected = selected.map (fun c => (c.id, c)) := by
  rw [rawLookupOf, foldl_dictInsert_eq selected [] (by simp) h]
  simp

/-- In the selected list, exactly the popular partition carries the popular
assignment id: the two samples are drawn from the remaining partition. -/
theorem selected_filter_popular (seed base : Nat) (data : List Conversation)
    (popId : String) :
    (selectedConversations seed base data popId).filter
      (fun c => c.assignment.id = popId) = popularPartition data popId := by
  rw [selectedConversations, List.filter_append, List.filter_append]
  have h1 : (sampledWithConcepts seed base data popId).filter
      (fun c => c.assignment.id = popId) = [] := by
    rw [List.filter_eq_nil_iff]
    intro c hc
    have hc' : c ∈ withConceptsPool data popId := pySample_subset _ _ _ hc
    simpa using (mem_withConceptsPool.1 hc').2.1
  have h2 : (sampledWithoutConcepts seed base data popId).filter
      (fun c => c.assignment.id = popId) = [] := by
    rw [List.filter_eq_nil_iff]
    intro c hc
    have hc' : c ∈ withoutConceptsPool data popId := pySample_subset _ _ _ hc
    simpa using (mem_withoutConceptsPool.1 hc').2.1
  have h3 : (popularPartition data popId).filter
      (fun c => c.assignment.id = popId) = popularPartition data popId := by
    rw [List.filter_eq_self]
    intro c hc
    simpa using (mem_popularPartition.1 hc).2
  rw [h1, h2, h3, List.nil_append, List.nil_append]

/-- With pairwise-distinct conversation ids in the source collection, the
selected list (two samples plus the popular partition) has pairwise-distinct
ids: the three pieces are duplicate-free and pairwise disjoint. -/
theorem selected_ids_nodup (seed base : Nat) (data : List Conversation)
    (popId : String) (hnd : (data.map (fun c => c.id)).Nodup) :
    ((selectedConversations seed base data popId).map (fun c => c.id)).Nodup := by
  have hinj : ∀ a ∈ data, ∀ b ∈ data, a.id = b.id → a = b :=
    List.inj_on_of_nodup_map hnd
  have hdnd : data.Nodup := hnd.of_map _
  have hws : ∀ c ∈ sampledWithConcepts seed base data popId,
      c ∈ data ∧ ¬c.assignment.id = popId ∧ has_valid_concepts c = true :=
    fun c hc => mem_withConceptsPool.1 (pySample_subset _ _ _ hc)
  have hwos : ∀ c ∈ sampledWithoutConcepts seed base data popId,
      c ∈ data ∧ ¬c.assignment.id = popId ∧ has_valid_concepts c = false :=
    fun c hc => mem_withoutConceptsPool.1 (pySample_subset _ _ _ hc)
  have hpop : ∀ c ∈ popularPartition data popId,
      c ∈ data ∧ c.assignment.id = popId :=
    fun c hc => mem_popularPartition.1 hc
  have hwsnd : (sampledWithConcepts seed base data popId).Nodup :=
    pySample_nodup _ _ _ ((hdnd.filter _).filter _)
  have hwosnd : (sampledWithoutConcepts seed base data popId).Nodup :=
    pySample_nodup _ _ _ ((hdnd.filter _).filter _)
  have hpopnd : (popularPartition data popId).Nodup := hdnd.filter _
  have m1 : ((sampledWithConcepts seed base data popId).map
      (fun c => c.id)).Nodup :=
    hwsnd.map_on (fun a ha b hb heq => hinj a (hws a ha).1 b (hws b hb).1 heq)
  have m2 : ((sampledWithoutConcepts seed base data popId).map
      (fun c => c.id)).Nodup :=
    hwosnd.map_on (fun a ha b hb heq => hinj a (hwos a ha).1 b (hwos b hb).1 heq)
  have m3 : ((popularPartition data popId).map (fun c => c.id)).Nodup :=
    hpopnd.map_on (fun a ha b hb heq => hinj a (hpop a ha).1 b (hpop b hb).1 heq)
  rw [selectedConversations, List.map_append, List.map_append,
    List.nodup_append, List.nodup_append]
  refine ⟨⟨m1, m2, ?_⟩, m3, ?_⟩
  · intro x hx1 hx2
    obtain ⟨a, ha, hax⟩ := List.mem_map.1 hx1
    obtain ⟨b, hb, hbx⟩ := List.mem_map.1 hx2
    have hab : b = a := hinj b (hwos b hb).1 a (hws a ha).1 (hbx.trans hax.symm)
    have h2 := (hwos b hb).2.2
    rw [hab] at h2
    exact absurd h2 (by simp [(hws a ha).2.2])
  · intro x hx1 hx2
    obtain ⟨b, hb, hbx⟩ := List.mem_map.1 hx2
    rcases List.mem_append.1 hx1 with hx | hx
    · obtain ⟨a, ha, hax⟩ := List.mem_map.1 hx
      have hab : b = a := hinj b (hpop b hb).1 a (hws a ha).1 (hbx.trans hax.symm)
      have h2 := (hpop b hb).2
      rw [hab] at h2
      exact absurd h2 (hws a ha).2.1
    · obtain ⟨a, ha, hax⟩ := List.mem_map.1 hx
      have hab : b = a := hinj b (hpop b hb).1 a (hwos a ha).1 (hbx.trans hax.symm)
      have h2 := (hpop b hb).2
      rw [hab] at h2
      exact absurd h2 (hwos a ha).2.1

/-- With pairwise-distinct ids, the popular dict is the popular partition's
key/value pairs in order. -/
theorem popularDataOf_eq (seed base : Nat) (data : List Conversation)
    (popId : String) (hnd : (data.map (fun c => c.id)).Nodup) :
    popularDataOf (selectedConversations seed base data popId) popId =
      (popularPartition data popId).map (fun c => (c.id, c)) := by
  have hpnd : ((popularPartition data popId).map (fun c => c.id)).Nodup :=
    ((List.filter_sublist data).map (fun c => c.id)).nodup hnd
  rw [popularDataOf, selected_filter_popular,
    foldl_dictInsert_eq _ [] (by simp) hpnd]
  simp

/-- C3: with unique conversation ids, the summary table has one row per
selected conversation with no duplicate `conversation_id`, and its
`conversation_id` column coincides with the raw lookup's key list — the two
key sets are equal. -/
theorem c3_bijective_keys (seed base : Nat) (data : List Conversation)
    (hne : data ≠ []) (hnd : (data.map (fun c => c.id)).Nodup) :
    ∃ out, preprocessCore seed base data = .ok out ∧
      out.summary.map (fun r => r.conversation_id) =
        out.rawLookup.map Prod.fst ∧
      (out.summary.map (fun r => r.conversation_id)).Nodup ∧
      ∀ cid, (cid ∈ out.summary.map (fun r => r.conversation_id) ↔
        cid ∈ out.rawLookup.map Prod.fst) := by
  obtain ⟨popId, hpop⟩ := mostPopularAssignment_isSome data hne
  have hsel := selected_ids_nodup seed base data popId hnd
  have hsum : (buildOutput seed base data popId).summary.map
      (fun r => r.conversation_id) =
      (selectedConversations seed base data popId).map (fun c => c.id) := by
    show ((selectedConversations seed base data popId).map
      (makeRecord popId)).map (fun r => r.conversation_id) = _
    rw [List.map_map]
    rfl
  have hraw : (buildOutput seed base data popId).rawLookup.map Prod.fst =
      (selectedConversations seed base data popId).map (fun c => c.id) := by
    show (rawLookupOf (selectedConversations seed base data popId)).map
      Prod.fst = _
    rw [rawLookupOf_eq _ hsel, List.map_map]
    rfl
  refine ⟨buildOutput seed base data popId, by simp [preprocessCore, hpop],
    ?_, ?_, ?_⟩
  · rw [hsum, hraw]
  · rw [hsum]
    exact hsel
  · intro cid
    rw [hsum, hraw]

/-- C3 witness: on the fixture collection (unique ids, non-empty) the run
succeeds with equal, duplicate-free key lists. -/
theorem c3_witness :
    ∃ out, preprocessCore 7 4 dataW = .ok out ∧
      out.summary.map (fun r => r.conversation_id) =
        out.rawLookup.map Prod.fst ∧
      (out.summary.map (fun r => r.conversation_id)).Nodup ∧
      ∀ cid, (cid ∈ out.summary.map (fun r => r.conversation_id) ↔
        cid ∈ out.rawLookup.map Prod.fst) :=
  c3_bijective_keys 7 4 dataW (by simp [dataW]) (by decide)

/-- C2: the popular-assignment extract's record set is exactly the set of
input records whose assignment id is the most-frequent assignment id of the
full collection; the popular partition enters the selected set in full, and
the extract's keys are a subset of the raw lookup's keys. -/
theorem c2_popular_extract (seed base : Nat) (data : List Conversation)
    (popId : String) (hpop : mostPopularAssignment data = some popId)
    (hnd : (data.map (fun c => c.id)).Nodup) :
    ∃ out, preprocessCore seed base data = .ok out ∧
      (∀ c, c ∈ out.popularExtract.conversations.map Prod.snd ↔
        c ∈ data ∧ c.assignment.id = popId) ∧
      (∀ c ∈ popularPartition data popId,
        c ∈ selectedConversations seed base data popId) ∧
      (∀ k ∈ out.popularExtract.conversations.map Prod.fst,
        k ∈ out.rawLookup.map Prod.fst) := by
  have hpd : (buildOutput seed base data popId).popularExtract.conversations =
      (popularPartition data popId).map (fun c => (c.id, c)) :=
    popularDataOf_eq seed base data popId hnd
  have hsub : ∀ c ∈ popularPartition data popId,
      c ∈ selectedConversations seed base data popId := by
    intro c hc
    rw [selectedConversations]
    exact List.mem_append_right _ hc
  refine ⟨buildOutput seed base data popId, by simp [preprocessCore, hpop],
    ?_, hsub, ?_⟩
  · intro c
    rw [hpd, List.map_map]
    show c ∈ (popularPartition data popId).map (fun c => c) ↔ _
    rw [List.map_id']
    exact mem_popularPartition
  · intro k hk
    rw [hpd, List.map_map] at hk
    obtain ⟨c, hc, hck⟩ := List.mem_map.1 hk
    have hcsel := hsub c hc
    have hraw : (buildOutput seed base data popId).rawLookup =
        (selectedConversations seed base data popId).map
          (fun c => (c.id, c)) :=
      rawLookupOf_eq _ (selected_ids_nodup seed base data popId hnd)
    rw [hraw, List.map_map]
    exact List.mem_map.2 ⟨c, hcsel, hck⟩

/-- C2 witness: on the fixture collection, assignment "A" is most popular
and the extract's records are exactly the "A" conversations. -/
theorem c2_witness :
    ∃ out, preprocessCore 7 4 dataW = .ok out ∧
      (∀ c, c ∈ out.popularExtract.conversations.map Prod.snd ↔
        c ∈ dataW ∧ c.assignment.id = "A") ∧
      (∀ c ∈ popularPartition dataW "A",
        c ∈ selectedConversations 7 4 dataW "A") ∧
      (∀ k ∈ out.popularExtract.conversations.map Prod.fst,
        k ∈ out.rawLookup.map Prod.fst) :=
  c2_popular_extract 7 4 dataW "A" (by decide) (by decide)

end Sherpa
